import Mathlib

/-!
Verification development for a small record-keeping backend
(`backend/crud.py`, `backend/main.py`, `backend/config.py`,
`backend/models.py`, `backend/schemas.py`).

Python strings are modelled as `List Char`; `None`-able values as
`Option`; a raised exception as `Except.error`.  The Python expression
`s.split(",")` (which returns `[""]` on the empty string) is modelled by
`pySplit`, and `",".join(l)` by `pyJoin`.
-/

set_option maxHeartbeats 1000000

/-- Model of the Python expression `s.split(",")`: splits at every comma,
keeping empty pieces; the empty string yields `[""]`. -/
def pySplit : List Char → List (List Char)
  | [] => [[]]
  | c :: rest =>
    if c = ',' then [] :: pySplit rest
    else (c :: (pySplit rest).headD []) :: (pySplit rest).tail

/-- Model of the Python expression `",".join(l)`. -/
def pyJoin : List (List Char) → List Char
  | [] => []
  | [t] => t
  | t :: ts => t ++ ',' :: pyJoin ts

theorem pySplit_cons (c : Char) (rest : List Char) :
    pySplit (c :: rest) =
      if c = ',' then [] :: pySplit rest
      else (c :: (pySplit rest).headD []) :: (pySplit rest).tail := rfl

theorem pySplit_ne_nil (s : List Char) : pySplit s ≠ [] := by
  cases s with
  | nil => simp [pySplit]
  | cons c rest =>
    unfold pySplit
    by_cases hc : c = ','
    · rw [if_pos hc]
      simp
    · rw [if_neg hc]
      simp

theorem pyJoin_cons_of_ne_nil (t : List Char) (ts : List (List Char)) (h : ts ≠ []) :
    pyJoin (t :: ts) = t ++ ',' :: pyJoin ts := by
  cases ts with
  | nil => exact absurd rfl h
  | cons u us => rfl

theorem pyJoin_pySplit (s : List Char) : pyJoin (pySplit s) = s := by
  induction s with
  | nil => rfl
  | cons c rest ih =>
    unfold pySplit
    by_cases hc : c = ','
    · rw [if_pos hc, pyJoin_cons_of_ne_nil _ _ (pySplit_ne_nil rest), ih, hc]
      rfl
    · rw [if_neg hc]
      cases h : pySplit rest with
      | nil => exact absurd h (pySplit_ne_nil rest)
      | cons t ts =>
        rw [h] at ih
        simp only [List.headD_cons, List.tail_cons]
        cases ts with
        | nil =>
          simpa [pyJoin] using congrArg (c :: ·) ih
        | cons u us =>
          rw [pyJoin_cons_of_ne_nil _ _ (by simp)] at ih ⊢
          simpa using congrArg (c :: ·) ih

theorem no_comma_of_mem_pySplit (s : List Char) :
    ∀ t ∈ pySplit s, ',' ∉ t := by
  induction s with
  | nil =>
    intro t ht
    simp [pySplit] at ht
    simp [ht]
  | cons c rest ih =>
    intro t ht
    unfold pySplit at ht
    by_cases hc : c = ','
    · rw [if_pos hc] at ht
      rcases List.mem_cons.mp ht with h | h
      · simp [h]
      · exact ih t h
    · rw [if_neg hc] at ht
      cases h : pySplit rest with
      | nil => exact absurd h (pySplit_ne_nil rest)
      | cons u us =>
        rw [h] at ht
        simp only [List.headD_cons, List.tail_cons] at ht
        rcases List.mem_cons.mp ht with h1 | h1
        · subst h1
          intro hmem
          rcases List.mem_cons.mp hmem with h2 | h2
          · exact hc h2.symm
          · exact ih u (by rw [h]; exact List.mem_cons_self u us) h2
        · exact ih t (by rw [h]; exact List.mem_cons_of_mem u h1)

theorem pySplit_of_no_comma (t : List Char) (h : ',' ∉ t) : pySplit t = [t] := by
  induction t with
  | nil => rfl
  | cons c rest ih =>
    have hc : ¬ c = ',' := fun hc => h (by simp [hc])
    have hrest : ',' ∉ rest := fun hm => h (List.mem_cons_of_mem c hm)
    unfold pySplit
    rw [if_neg hc, ih hrest]
    rfl

theorem pySplit_append_comma (t r : List Char) (h : ',' ∉ t) :
    pySplit (t ++ ',' :: r) = t :: pySplit r := by
  induction t with
  | nil => simp [pySplit]
  | cons c rest ih =>
    have hc : ¬ c = ',' := fun hc => h (by simp [hc])
    have hrest : ',' ∉ rest := fun hm => h (List.mem_cons_of_mem c hm)
    show pySplit (c :: (rest ++ ',' :: r)) = (c :: rest) :: pySplit r
    rw [pySplit_cons, if_neg hc, ih hrest]
    rfl

theorem pySplit_pyJoin (x : List (List Char)) (hx : x ≠ [])
    (hc : ∀ t ∈ x, ',' ∉ t) : pySplit (pyJoin x) = x := by
  induction x with
  | nil => exact absurd rfl hx
  | cons t ts ih =>
    cases ts with
    | nil =>
      show pySplit (pyJoin [t]) = [t]
      exact pySplit_of_no_comma t (hc t (List.mem_cons_self t []))
    | cons u us =>
      rw [pyJoin_cons_of_ne_nil t (u :: us) (by simp)]
      rw [pySplit_append_comma t _ (hc t (List.mem_cons_self t _))]
      rw [ih (by simp) (fun v hv => hc v (List.mem_cons_of_mem t hv))]

theorem pyJoin_eq_nil_iff (x : List (List Char)) :
    pyJoin x = [] ↔ x = [] ∨ x = [[]] := by
  cases x with
  | nil => simp [pyJoin]
  | cons t ts =>
    cases ts with
    | nil =>
      constructor
      · intro h
        right
        simp only [pyJoin] at h
        rw [h]
      · intro h
        rcases h with h | h
        · exact absurd h (by simp)
        · rw [List.cons_eq_cons] at h
          rw [h.1]
          rfl
    | cons u us =>
      rw [pyJoin_cons_of_ne_nil t (u :: us) (by simp)]
      simp

/-- Model of `tags_to_str` in `backend/crud.py`:
`",".join(tags) if tags else ""`.  A Python list is falsy exactly when it
is empty. -/
def tags_to_str (tags : List (List Char)) : List Char :=
  if tags.isEmpty then [] else pyJoin tags

/-- Model of `str_to_tags` in `backend/crud.py`:
`tags_str.split(",") if tags_str else []`. -/
def str_to_tags (tags_str : List Char) : List (List Char) :=
  if tags_str.isEmpty then [] else pySplit tags_str

/-- Decode-encode round trip for the tag codec, for comma-free tag lists
other than the singleton empty tag. -/
theorem str_to_tags_tags_to_str (x : List (List Char))
    (hc : ∀ t ∈ x, ',' ∉ t) (hne : x ≠ [[]]) :
    str_to_tags (tags_to_str x) = x := by
  cases hx : x.isEmpty with
  | true =>
    rw [List.isEmpty_iff] at hx
    subst hx
    rfl
  | false =>
    have hxne : x ≠ [] := by
      intro h
      rw [h] at hx
      simp at hx
    unfold tags_to_str
    rw [hx]
    simp only [Bool.false_eq_true, if_false]
    have hj : pyJoin x ≠ [] := by
      intro h
      rcases (pyJoin_eq_nil_iff x).mp h with h1 | h1
      · exact hxne h1
      · exact hne h1
    have hie : (pyJoin x).isEmpty = false := by
      cases hj2 : pyJoin x with
      | nil => exact absurd hj2 hj
      | cons a l => rfl
    unfold str_to_tags
    rw [hie]
    simp only [Bool.false_eq_true, if_false]
    exact pySplit_pyJoin x hxne hc

/-- Model of Python `str.strip()`: removes leading and trailing whitespace. -/
def pyStrip (t : List Char) : List Char :=
  ((t.dropWhile Char.isWhitespace).reverse.dropWhile Char.isWhitespace).reverse

theorem mem_of_mem_dropWhile (a : Char) (p : Char → Bool) (l : List Char)
    (h : a ∈ l.dropWhile p) : a ∈ l := by
  induction l with
  | nil => simp at h
  | cons b bs ih =>
    rw [List.dropWhile_cons] at h
    by_cases hb : p b = true
    · rw [if_pos hb] at h
      exact List.mem_cons_of_mem b (ih h)
    · rw [if_neg hb] at h
      exact h

theorem mem_of_mem_pyStrip (a : Char) (t : List Char) (h : a ∈ pyStrip t) :
    a ∈ t := by
  unfold pyStrip at h
  rw [List.mem_reverse] at h
  have h2 := mem_of_mem_dropWhile a _ _ h
  rw [List.mem_reverse] at h2
  exact mem_of_mem_dropWhile a _ _ h2

/-- Model of the Python comprehension
`[tag.strip() for tag in tags_str.split(",") if tag.strip()]`
used by both branches of `suggest_categories` in `backend/crud.py`
(a list is truthy exactly when non-empty). -/
def parse_tag_response (tags_str : List Char) : List (List Char) :=
  ((pySplit tags_str).map pyStrip).filter (fun t => !t.isEmpty)

theorem parse_tag_response_no_comma (s : List Char) :
    ∀ t ∈ parse_tag_response s, ',' ∉ t := by
  intro t ht
  unfold parse_tag_response at ht
  have h1 := List.mem_of_mem_filter ht
  rcases List.mem_map.mp h1 with ⟨u, hu, hut⟩
  intro hc
  subst hut
  exact no_comma_of_mem_pySplit s u hu (mem_of_mem_pyStrip ',' u hc)

theorem parse_tag_response_no_nil (s : List Char) :
    [] ∉ parse_tag_response s := by
  intro h
  have h2 := List.of_mem_filter h
  simp at h2

/-- Round trip for any tag list produced by a successful suggestion parse:
all elements are comma-free and non-empty. -/
theorem str_to_tags_tags_to_str_of_parsed (ts : List (List Char))
    (hc : ∀ t ∈ ts, ',' ∉ t) (hn : [] ∉ ts) :
    str_to_tags (tags_to_str ts) = ts := by
  cases hts : ts with
  | nil => rfl
  | cons u us =>
    subst hts
    refine str_to_tags_tags_to_str _ hc ?hne
    intro h
    rw [h] at hn
    exact hn (List.mem_cons_self [] [])

/-- Model of the `ContentExample` SQLAlchemy model in `backend/models.py`;
`tags` holds the comma-joined storage form. -/
structure ContentExample where
  id : Nat
  title : List Char
  source_url : Option (List Char)
  content_snippet : List Char
  notes : Option (List Char)
  tags : List Char
deriving DecidableEq, Repr

/-- Model of the `ContentExampleCreate` pydantic schema in
`backend/schemas.py`; `tags` is `Optional[List[str]]`. -/
structure ContentExampleCreate where
  title : List Char
  source_url : Option (List Char)
  content_snippet : List Char
  notes : Option (List Char)
  tags : Option (List (List Char))
deriving DecidableEq, Repr

/-- Python truthiness of an `Optional[List[str]]` value: `None` and the
empty list are falsy. -/
def pyTruthy (tags : Option (List (List Char))) : Bool :=
  match tags with
  | none => false
  | some l => !l.isEmpty

/-- Database state: the table rows in insertion order plus the next
autoincrement primary key value. -/
structure DB where
  rows : List ContentExample
  nextId : Nat
deriving DecidableEq, Repr

/-- Encoding at the call sites `tags_to_str(ex.tags)` where the
argument is `Optional[List[str]]`: `None`, like `[]`, is falsy in the
`if tags` guard of `tags_to_str`, so both encode to the empty string. -/
def tags_to_str_opt (tags : Option (List (List Char))) : List Char :=
  tags_to_str (tags.getD [])

/-- Model of `create_content_example` in `backend/crud.py`: inserts a row
with a fresh autoincrement id and returns the stored row. -/
def create_content_example (db : DB) (ex : ContentExampleCreate) :
    DB × ContentExample :=
  let db_example : ContentExample :=
    { id := db.nextId
      title := ex.title
      source_url := ex.source_url
      content_snippet := ex.content_snippet
      notes := ex.notes
      tags := tags_to_str_opt ex.tags }
  ({ rows := db.rows ++ [db_example], nextId := db.nextId + 1 }, db_example)

/-- Model of `get_content_examples` in `backend/crud.py`:
`query.offset(skip).limit(limit).all()` over the rows in insertion order. -/
def get_content_examples (db : DB) (skip : Nat) (limit : Nat) :
    List ContentExample :=
  (db.rows.drop skip).take limit

/-- Model of `get_content_example` in `backend/crud.py`:
`query.filter(id == example_id).first()`, i.e. the first row with the
requested primary key, or `None`. -/
def get_content_example (db : DB) (example_id : Nat) :
    Option ContentExample :=
  db.rows.find? (fun r => r.id == example_id)

def replaceFirstById (rows : List ContentExample) (example_id : Nat)
    (r2 : ContentExample) : List ContentExample :=
  match rows with
  | [] => []
  | q :: qs =>
    if q.id == example_id then r2 :: qs
    else q :: replaceFirstById qs example_id r2

def removeFirstById (rows : List ContentExample) (example_id : Nat) :
    List ContentExample :=
  match rows with
  | [] => []
  | q :: qs =>
    if q.id == example_id then qs
    else q :: removeFirstById qs example_id

/-- Model of `update_content_example` in `backend/crud.py`: fetches the
row, overwrites every field from the payload, commits, and returns the
row; when the id is absent it returns Python `None` and the table is
untouched. -/
def update_content_example (db : DB) (example_id : Nat)
    (ex : ContentExampleCreate) : DB × Option ContentExample :=
  match get_content_example db example_id with
  | none => (db, none)
  | some db_example =>
    let db_example2 : ContentExample :=
      { db_example with
        title := ex.title
        source_url := ex.source_url
        content_snippet := ex.content_snippet
        notes := ex.notes
        tags := tags_to_str_opt ex.tags }
    ({ db with rows := replaceFirstById db.rows example_id db_example2 },
     some db_example2)

/-- Model of `delete_content_example` in `backend/crud.py`: fetches the
row, deletes it, and returns the fetched row; `None` when absent. -/
def delete_content_example (db : DB) (example_id : Nat) :
    DB × Option ContentExample :=
  match get_content_example db example_id with
  | none => (db, none)
  | some db_example =>
    ({ db with rows := removeFirstById db.rows example_id }, some db_example)

/-- Model of the fixed prompt construction in `suggest_categories`. -/
def build_prompt (content_snippet : List Char) : List Char :=
  ("Suggest 3-5 relevant categories or tags for the following content, as a comma-separated list.\nContent: ").toList ++ content_snippet

/-- Environment for one run of the suggestion provider: the configured
provider name as returned by `config.get_ai_provider()`, and the outcome
the outbound call of each backend would have for a given prompt.
`Except.error ()` models a raised exception (network failure,
client-library error); for the `requests.post` backend a completed HTTP
exchange carries the status code and the optional `content` field of the
JSON body, where `none` models a malformed payload whose field access
raises. -/
structure Env where
  provider : String
  openai_call : List Char → Except Unit (List Char)
  claude_post : List Char → Except Unit (Nat × Option (List Char))

/-- Model of `suggest_categories` in `backend/crud.py`, instrumented with
the number of outbound backend calls performed.  Exceptions propagate as
`Except.error`: the source wraps neither branch in `try`/`except`, and
only a non-200 `status_code` in the `claude` branch is mapped to `[]`. -/
def suggest_categoriesI (env : Env) (content_snippet : List Char) :
    Except Unit (List (List Char)) × Nat :=
  let prompt := build_prompt content_snippet
  if env.provider = "openai" then
    match env.openai_call prompt with
    | Except.error e => (Except.error e, 1)
    | Except.ok tags_str => (Except.ok (parse_tag_response tags_str), 1)
  else if env.provider = "claude" then
    match env.claude_post prompt with
    | Except.error e => (Except.error e, 1)
    | Except.ok (status_code, content) =>
      if status_code = 200 then
        match content with
        | none => (Except.error (), 1)
        | some tags_str => (Except.ok (parse_tag_response tags_str), 1)
      else (Except.ok [], 1)
  else (Except.ok [], 0)

/-- Value of `suggest_categories`, without the call counter. -/
def suggest_categories (env : Env) (content_snippet : List Char) :
    Except Unit (List (List Char)) :=
  (suggest_categoriesI env content_snippet).1

/-- Model of `create_example` in `backend/main.py`, instrumented with the
number of `suggest_categories` invocations (0 or 1): the source computes
`tags = example.tags if example.tags else suggest_categories(example.content_snippet)`
and then rebuilds the payload with those tags before delegating to
`create_content_example`. -/
def create_exampleI (env : Env) (db : DB) (ex : ContentExampleCreate) :
    Except Unit (DB × ContentExample) × Nat :=
  let picked : Except Unit (Option (List (List Char))) × Nat :=
    if pyTruthy ex.tags then (Except.ok ex.tags, 0)
    else
      match suggest_categories env ex.content_snippet with
      | Except.error e => (Except.error e, 1)
      | Except.ok ts => (Except.ok (some ts), 1)
  match picked with
  | (Except.error e, n) => (Except.error e, n)
  | (Except.ok tags, n) =>
    let example_with_tags : ContentExampleCreate :=
      { title := ex.title
        source_url := ex.source_url
        content_snippet := ex.content_snippet
        notes := ex.notes
        tags := tags }
    (Except.ok (create_content_example db example_with_tags), n)

/-- Value of the create endpoint, without the invocation counter. -/
def create_example (env : Env) (db : DB) (ex : ContentExampleCreate) :
    Except Unit (DB × ContentExample) :=
  (create_exampleI env db ex).1

/-- Model of `read_example` in `backend/main.py`: a missing id raises
`HTTPException(status_code=404)`. -/
def read_example (db : DB) (example_id : Nat) : Except Nat ContentExample :=
  match get_content_example db example_id with
  | none => Except.error 404
  | some r => Except.ok r

/-- Model of `update_example` in `backend/main.py`. -/
def update_example (db : DB) (example_id : Nat)
    (ex : ContentExampleCreate) : DB × Except Nat ContentExample :=
  match update_content_example db example_id ex with
  | (db2, none) => (db2, Except.error 404)
  | (db2, some r) => (db2, Except.ok r)

/-- Model of `delete_example` in `backend/main.py`. -/
def delete_example (db : DB) (example_id : Nat) :
    DB × Except Nat ContentExample :=
  match delete_content_example db example_id with
  | (db2, none) => (db2, Except.error 404)
  | (db2, some r) => (db2, Except.ok r)

/-- Model of `AI_PROVIDER` in `backend/config.py` as shipped; `Env.provider`
generalises over this configuration value. -/
def AI_PROVIDER : String := "claude"

theorem suggest_categoriesI_claude_non200 (env : Env) (s : List Char)
    (status_code : Nat) (content : Option (List Char))
    (hp : env.provider = "claude")
    (hr : env.claude_post (build_prompt s) = Except.ok (status_code, content))
    (hst : status_code ≠ 200) :
    suggest_categoriesI env s = (Except.ok [], 1) := by
  unfold suggest_categoriesI
  rw [hp, if_neg (by decide), if_pos rfl, hr]
  dsimp only
  rw [if_neg hst]

theorem create_exampleI_of_truthy (env : Env) (db : DB)
    (ex : ContentExampleCreate) (ht : pyTruthy ex.tags = true) :
    create_exampleI env db ex =
      (Except.ok (create_content_example db
        { title := ex.title
          source_url := ex.source_url
          content_snippet := ex.content_snippet
          notes := ex.notes
          tags := ex.tags }), 0) := by
  unfold create_exampleI
  rw [ht]
  rw [if_pos rfl]

theorem create_exampleI_of_suggest_ok (env : Env) (db : DB)
    (ex : ContentExampleCreate) (ts : List (List Char))
    (ht : pyTruthy ex.tags = false)
    (hs : suggest_categories env ex.content_snippet = Except.ok ts) :
    create_exampleI env db ex =
      (Except.ok (create_content_example db
        { title := ex.title
          source_url := ex.source_url
          content_snippet := ex.content_snippet
          notes := ex.notes
          tags := some ts }), 1) := by
  unfold create_exampleI
  rw [ht, if_neg (by simp), hs]

theorem create_exampleI_of_suggest_error (env : Env) (db : DB)
    (ex : ContentExampleCreate) (e : Unit)
    (ht : pyTruthy ex.tags = false)
    (hs : suggest_categories env ex.content_snippet = Except.error e) :
    create_exampleI env db ex = (Except.error e, 1) := by
  unfold create_exampleI
  rw [ht, if_neg (by simp), hs]

theorem suggest_categories_ok_clean (env : Env) (s : List Char)
    (ts : List (List Char))
    (hs : suggest_categories env s = Except.ok ts) :
    (∀ t ∈ ts, ',' ∉ t) ∧ [] ∉ ts := by
  unfold suggest_categories suggest_categoriesI at hs
  simp only [] at hs
  by_cases h1 : env.provider = "openai"
  · rw [if_pos h1] at hs
    cases h2 : env.openai_call (build_prompt s) with
    | error e =>
      rw [h2] at hs
      simp at hs
    | ok text =>
      rw [h2] at hs
      simp only [Except.ok.injEq] at hs
      rw [← hs]
      exact ⟨parse_tag_response_no_comma text, parse_tag_response_no_nil text⟩
  · rw [if_neg h1] at hs
    by_cases h2 : env.provider = "claude"
    · rw [if_pos h2] at hs
      cases h3 : env.claude_post (build_prompt s) with
      | error e =>
        rw [h3] at hs
        simp at hs
      | ok pr =>
        obtain ⟨status_code, content⟩ := pr
        rw [h3] at hs
        dsimp only at hs
        by_cases h4 : status_code = 200
        · rw [if_pos h4] at hs
          cases content with
          | none => simp at hs
          | some text =>
            simp only [Except.ok.injEq] at hs
            rw [← hs]
            exact ⟨parse_tag_response_no_comma text, parse_tag_response_no_nil text⟩
        · rw [if_neg h4] at hs
          simp only [Except.ok.injEq] at hs
          rw [← hs]
          exact ⟨by simp, by simp⟩
    · rw [if_neg h2] at hs
      simp only [Except.ok.injEq] at hs
      rw [← hs]
      exact ⟨by simp, by simp⟩

/-- C2 counterexample: the claimed round trip fails at the one-element tag
list containing the empty string, although that element contains no comma:
the stored form is the empty string, which decodes to the empty list. -/
theorem c2_roundtrip_counterexample :
    ¬ (∀ x : List (List Char), (∀ t ∈ x, ',' ∉ t) →
        str_to_tags (tags_to_str x) = x) := by
  intro h
  have h2 := h [[]] (by decide)
  exact absurd h2 (by decide)

/-- C2 (amended): for every tag list whose elements contain no comma and
which is not the one-element list containing the empty string, decoding the
encoding returns the list unchanged. -/
theorem c2_roundtrip_amended (x : List (List Char))
    (hc : ∀ t ∈ x, ',' ∉ t) (hne : x ≠ [[]]) :
    str_to_tags (tags_to_str x) = x :=
  str_to_tags_tags_to_str x hc hne

/-- Witness for the amended C2 round trip at a concrete tag list. -/
theorem c2_roundtrip_amended_witness :
    (∀ t ∈ [['x'], ['y']], ',' ∉ t) ∧ [['x'], ['y']] ≠ ([[]] : List (List Char)) ∧
    str_to_tags (tags_to_str [['x'], ['y']]) = [['x'], ['y']] :=
  ⟨by decide, by decide, c2_roundtrip_amended [['x'], ['y']] (by decide) (by decide)⟩

/-- C10: encoding the decoding of any stored tags string returns the string
unchanged, so re-saving a decoded record never changes the stored form. -/
theorem c10_encode_decode_roundtrip (s : List Char) :
    tags_to_str (str_to_tags s) = s := by
  cases s with
  | nil => rfl
  | cons a l =>
    have h1 : str_to_tags (a :: l) = pySplit (a :: l) := rfl
    have h2 : (pySplit (a :: l)).isEmpty = false := by
      cases h : pySplit (a :: l) with
      | nil => exact absurd h (pySplit_ne_nil _)
      | cons t ts => rfl
    rw [h1]
    unfold tags_to_str
    rw [h2]
    simp only [Bool.false_eq_true, if_false]
    exact pyJoin_pySplit (a :: l)

/-- Row stored by `create_content_example` for payload `ex` in state `db`. -/
def storedRow (db : DB) (ex : ContentExampleCreate) : ContentExample :=
  { id := db.nextId
    title := ex.title
    source_url := ex.source_url
    content_snippet := ex.content_snippet
    notes := ex.notes
    tags := tags_to_str_opt ex.tags }

/-- Payload as rebuilt by the create endpoint with the chosen tags. -/
def withTags (ex : ContentExampleCreate) (tags : Option (List (List Char))) :
    ContentExampleCreate :=
  { title := ex.title
    source_url := ex.source_url
    content_snippet := ex.content_snippet
    notes := ex.notes
    tags := tags }

/-- Provider environment where the configured backend is `openai` and the
outbound client call raises. -/
def envOpenaiRaises : Env :=
  { provider := "openai"
    openai_call := fun _ => Except.error ()
    claude_post := fun _ => Except.error () }

/-- Provider environment where the configured backend is `claude` and the
outbound HTTP POST completes with status 500. -/
def envClaude500 : Env :=
  { provider := "claude"
    openai_call := fun _ => Except.error ()
    claude_post := fun _ => Except.ok (500, none) }

/-- Provider environment where the configured backend is `claude` and the
outbound HTTP POST completes with status 200 and content field "a, b". -/
def envClaudeOk : Env :=
  { provider := "claude"
    openai_call := fun _ => Except.error ()
    claude_post := fun _ => Except.ok (200, some ['a', ',', ' ', 'b']) }

/-- Provider environment with an unrecognized configured backend name. -/
def envUnknown : Env :=
  { provider := "gemini"
    openai_call := fun _ => Except.error ()
    claude_post := fun _ => Except.error () }

/-- Create payload with no tags supplied. -/
def exampleNoTags : ContentExampleCreate :=
  { title := ['B']
    source_url := none
    content_snippet := ['h', 'i']
    notes := none
    tags := none }

/-- Create payload with explicit tags. -/
def exampleWithTags : ContentExampleCreate :=
  { title := ['A']
    source_url := none
    content_snippet := ['h', 'i']
    notes := none
    tags := some [['x'], ['y']] }

/-- Empty initial database. -/
def db0 : DB := { rows := [], nextId := 1 }

/-- C1 counterexample: with the first backend (`openai`) configured and its
outbound call raising, the request has no tags, yet the exception
propagates out of `suggest_categories` (which therefore does not return an
empty sequence) and record creation fails instead of succeeding with an
empty tag list.  The `claude` branch likewise propagates a transport
exception or a malformed 200 payload; only a non-200 status is absorbed. -/
theorem c1_failure_counterexample :
    pyTruthy exampleNoTags.tags = false ∧
    envOpenaiRaises.openai_call (build_prompt exampleNoTags.content_snippet)
      = Except.error () ∧
    suggest_categories envOpenaiRaises exampleNoTags.content_snippet
      ≠ Except.ok [] ∧
    suggest_categories envOpenaiRaises exampleNoTags.content_snippet
      = Except.error () ∧
    create_example envOpenaiRaises db0 exampleNoTags = Except.error () := by
  have h2 : suggest_categories envOpenaiRaises exampleNoTags.content_snippet
      = Except.error () := rfl
  have h3 : create_example envOpenaiRaises db0 exampleNoTags
      = Except.error () := rfl
  refine ⟨rfl, rfl, ?ne, h2, h3⟩
  rw [h2]
  intro h
  exact Except.noConfusion h

/-- C1 (amended): when the configured backend is the second one (`claude`)
and the outbound call completes with a non-200 status, `suggest_categories`
returns the empty sequence and record creation still succeeds, with an
empty stored tag list; the other failure modes named by the original claim
(a raised exception in either backend branch, or a 200 response whose
payload lacks the expected field) propagate as exceptions instead. -/
theorem c1_amended_non200_degrades (env : Env) (db : DB)
    (ex : ContentExampleCreate) (status_code : Nat)
    (content : Option (List Char))
    (hp : env.provider = "claude")
    (hr : env.claude_post (build_prompt ex.content_snippet)
      = Except.ok (status_code, content))
    (hst : status_code ≠ 200)
    (ht : pyTruthy ex.tags = false) :
    suggest_categories env ex.content_snippet = Except.ok [] ∧
    ∃ db2 r, create_exampleI env db ex = (Except.ok (db2, r), 1) ∧
      r.tags = [] ∧ str_to_tags r.tags = [] := by
  have hsI := suggest_categoriesI_claude_non200 env ex.content_snippet
    status_code content hp hr hst
  have hs : suggest_categories env ex.content_snippet = Except.ok [] := by
    unfold suggest_categories
    rw [hsI]
  have hcr := create_exampleI_of_suggest_ok env db ex [] ht hs
  refine ⟨hs, (create_content_example db (withTags ex (some []))).1,
    storedRow db (withTags ex (some [])), ?eq, rfl, rfl⟩
  rw [hcr]
  rfl

/-- Witness for the amended C1 at a concrete environment and payload. -/
theorem c1_amended_non200_degrades_witness :
    envClaude500.provider = "claude" ∧
    envClaude500.claude_post (build_prompt exampleNoTags.content_snippet)
      = Except.ok (500, none) ∧
    (500 : Nat) ≠ 200 ∧
    pyTruthy exampleNoTags.tags = false ∧
    (suggest_categories envClaude500 exampleNoTags.content_snippet
        = Except.ok [] ∧
      ∃ db2 r, create_exampleI envClaude500 db0 exampleNoTags
          = (Except.ok (db2, r), 1) ∧
        r.tags = [] ∧ str_to_tags r.tags = []) :=
  ⟨rfl, rfl, by decide, rfl,
    c1_amended_non200_degrades envClaude500 db0 exampleNoTags 500 none
      rfl rfl (by decide) rfl⟩

/-- C3: a create request whose tags field is a non-empty sequence performs
zero suggestion-provider invocations, creation succeeds, and the stored
tags field of the stored record is the encoding of the supplied tags. -/
theorem c3_explicit_tags_no_invocation (env : Env) (db : DB)
    (ex : ContentExampleCreate) (ht : pyTruthy ex.tags = true) :
    (create_exampleI env db ex).2 = 0 ∧
    ∃ db2 r, (create_exampleI env db ex).1 = Except.ok (db2, r) ∧
      r.tags = tags_to_str_opt ex.tags := by
  have hcr := create_exampleI_of_truthy env db ex ht
  refine ⟨by rw [hcr], (create_content_example db (withTags ex ex.tags)).1,
    storedRow db (withTags ex ex.tags), ?eq, rfl⟩
  rw [hcr]
  rfl

/-- Witness for C3 at a concrete payload with explicit tags. -/
theorem c3_explicit_tags_no_invocation_witness :
    pyTruthy exampleWithTags.tags = true ∧
    ((create_exampleI envClaudeOk db0 exampleWithTags).2 = 0 ∧
      ∃ db2 r, (create_exampleI envClaudeOk db0 exampleWithTags).1
          = Except.ok (db2, r) ∧
        r.tags = tags_to_str_opt exampleWithTags.tags) :=
  ⟨rfl, c3_explicit_tags_no_invocation envClaudeOk db0 exampleWithTags rfl⟩

/-- C4: a create request with empty or absent tags invokes the suggestion
provider exactly once (on the content snippet of the request); when the call
succeeds, the returned tag sequence is persisted verbatim: the stored
string is its encoding and decodes back to exactly that sequence, order
included. -/
theorem c4_absent_tags_suggests_once (env : Env) (db : DB)
    (ex : ContentExampleCreate) (ts : List (List Char))
    (ht : pyTruthy ex.tags = false)
    (hs : suggest_categories env ex.content_snippet = Except.ok ts) :
    (create_exampleI env db ex).2 = 1 ∧
    ∃ db2 r, (create_exampleI env db ex).1 = Except.ok (db2, r) ∧
      r.tags = tags_to_str ts ∧ str_to_tags r.tags = ts := by
  have hcr := create_exampleI_of_suggest_ok env db ex ts ht hs
  obtain ⟨hc, hn⟩ := suggest_categories_ok_clean env ex.content_snippet ts hs
  refine ⟨by rw [hcr], (create_content_example db (withTags ex (some ts))).1,
    storedRow db (withTags ex (some ts)), ?eq, rfl, ?rt⟩
  · rw [hcr]
    rfl
  · exact str_to_tags_tags_to_str_of_parsed ts hc hn

/-- Witness for C4 at a concrete environment whose backend returns
"a, b", which parses to the two tags "a" and "b". -/
theorem c4_absent_tags_suggests_once_witness :
    pyTruthy exampleNoTags.tags = false ∧
    suggest_categories envClaudeOk exampleNoTags.content_snippet
      = Except.ok [['a'], ['b']] ∧
    ((create_exampleI envClaudeOk db0 exampleNoTags).2 = 1 ∧
      ∃ db2 r, (create_exampleI envClaudeOk db0 exampleNoTags).1
          = Except.ok (db2, r) ∧
        r.tags = tags_to_str [['a'], ['b']] ∧
        str_to_tags r.tags = [['a'], ['b']]) :=
  ⟨rfl, rfl,
    c4_absent_tags_suggests_once envClaudeOk db0 exampleNoTags [['a'], ['b']]
      rfl rfl⟩

theorem get_content_example_id_eq (db : DB) (example_id : Nat)
    (r : ContentExample) (h : get_content_example db example_id = some r) :
    r.id = example_id := by
  unfold get_content_example at h
  have h2 := List.find?_some h
  simpa using h2

theorem find?_replaceFirstById (rows : List ContentExample)
    (example_id : Nat) (r r2 : ContentExample)
    (h : rows.find? (fun q => q.id == example_id) = some r)
    (hr2 : r2.id = example_id) :
    (replaceFirstById rows example_id r2).find?
      (fun q => q.id == example_id) = some r2 := by
  induction rows with
  | nil => simp [List.find?] at h
  | cons q qs ih =>
    unfold replaceFirstById
    by_cases hq : (q.id == example_id) = true
    · rw [if_pos hq]
      exact List.find?_cons_of_pos qs (by simp [hr2])
    · rw [if_neg hq]
      have hstep : (q :: replaceFirstById qs example_id r2).find?
          (fun w => w.id == example_id)
          = (replaceFirstById qs example_id r2).find?
            (fun w => w.id == example_id) :=
        List.find?_cons_of_neg _ hq
      rw [hstep]
      have hh : (q :: qs).find? (fun w => w.id == example_id)
          = qs.find? (fun w => w.id == example_id) :=
        List.find?_cons_of_neg qs hq
      rw [hh] at h
      exact ih h

theorem find?_removeFirstById (rows : List ContentExample)
    (example_id : Nat)
    (hnd : (rows.map ContentExample.id).Nodup) :
    (removeFirstById rows example_id).find?
      (fun q => q.id == example_id) = none := by
  induction rows with
  | nil => rfl
  | cons q qs ih =>
    unfold removeFirstById
    rw [List.map_cons] at hnd
    have hnc := List.nodup_cons.mp hnd
    by_cases hq : (q.id == example_id) = true
    · rw [if_pos hq]
      have hqi : q.id = example_id := eq_of_beq hq
      rw [List.find?_eq_none]
      intro x hx hpx
      have hxi : x.id = example_id := eq_of_beq hpx
      exact hnc.1 (by
        rw [hqi, ← hxi]
        exact List.mem_map_of_mem ContentExample.id hx)
    · rw [if_neg hq]
      have hstep : (q :: removeFirstById qs example_id).find?
          (fun w => w.id == example_id)
          = (removeFirstById qs example_id).find?
            (fun w => w.id == example_id) :=
        List.find?_cons_of_neg _ hq
      rw [hstep]
      exact ih hnc.2

/-- Concrete stored row used by witnesses. -/
def row1 : ContentExample :=
  { id := 1
    title := ['A']
    source_url := some ['u']
    content_snippet := ['h']
    notes := some ['n']
    tags := ['x'] }

/-- Concrete one-row store used by witnesses. -/
def db1 : DB := { rows := [row1], nextId := 2 }

/-- C5: get, update, and delete on an id absent from the store all return
the NotFound signal (Python `None`, surfaced by the API layer as HTTP 404)
and leave the store state unchanged. -/
theorem c5_missing_id_not_found (db : DB) (example_id : Nat)
    (ex : ContentExampleCreate)
    (h : get_content_example db example_id = none) :
    update_content_example db example_id ex = (db, none) ∧
    delete_content_example db example_id = (db, none) ∧
    read_example db example_id = Except.error 404 ∧
    update_example db example_id ex = (db, Except.error 404) ∧
    delete_example db example_id = (db, Except.error 404) := by
  have hu : update_content_example db example_id ex = (db, none) := by
    unfold update_content_example
    rw [h]
  have hd : delete_content_example db example_id = (db, none) := by
    unfold delete_content_example
    rw [h]
  refine ⟨hu, hd, ?r, ?ue, ?de⟩
  · unfold read_example
    rw [h]
  · unfold update_example
    rw [hu]
  · unfold delete_example
    rw [hd]

/-- Witness for C5 on the empty store. -/
theorem c5_missing_id_not_found_witness :
    get_content_example db0 1 = none ∧
    (update_content_example db0 1 exampleWithTags = (db0, none) ∧
      delete_content_example db0 1 = (db0, none) ∧
      read_example db0 1 = Except.error 404 ∧
      update_example db0 1 exampleWithTags = (db0, Except.error 404) ∧
      delete_example db0 1 = (db0, Except.error 404)) :=
  ⟨rfl, c5_missing_id_not_found db0 1 exampleWithTags rfl⟩

/-- Row as rewritten in place by `update_content_example`: every payload
field overwrites the stored one; the primary key is untouched. -/
def updatedRow (r : ContentExample) (ex : ContentExampleCreate) :
    ContentExample :=
  { r with
    title := ex.title
    source_url := ex.source_url
    content_snippet := ex.content_snippet
    notes := ex.notes
    tags := tags_to_str_opt ex.tags }

/-- C6: update on a present id is a full replace: every stored field is
overwritten with the values from the payload (optional fields omitted in the
payload are reset to their defaults), the row keeps its id, the updated
row is returned, and a subsequent get on the id yields exactly it. -/
theorem c6_update_full_replace (db : DB) (example_id : Nat)
    (ex : ContentExampleCreate) (r : ContentExample)
    (h : get_content_example db example_id = some r) :
    ∃ db2 r2, update_content_example db example_id ex = (db2, some r2) ∧
      r2.id = r.id ∧
      r2.title = ex.title ∧
      r2.source_url = ex.source_url ∧
      r2.content_snippet = ex.content_snippet ∧
      r2.notes = ex.notes ∧
      r2.tags = tags_to_str_opt ex.tags ∧
      get_content_example db2 example_id = some r2 := by
  have hid := get_content_example_id_eq db example_id r h
  refine ⟨{ db with rows := replaceFirstById db.rows example_id (updatedRow r ex) },
    updatedRow r ex, ?eq, rfl, rfl, rfl, rfl, rfl, rfl, ?g⟩
  · unfold update_content_example
    rw [h]
    rfl
  · unfold get_content_example
    exact find?_replaceFirstById db.rows example_id r _
      (by unfold get_content_example at h; exact h) hid

/-- Witness for C6 on a one-row store. -/
theorem c6_update_full_replace_witness :
    get_content_example db1 1 = some row1 ∧
    (∃ db2 r2, update_content_example db1 1 exampleWithTags
        = (db2, some r2) ∧
      r2.id = row1.id ∧
      r2.title = exampleWithTags.title ∧
      r2.source_url = exampleWithTags.source_url ∧
      r2.content_snippet = exampleWithTags.content_snippet ∧
      r2.notes = exampleWithTags.notes ∧
      r2.tags = tags_to_str_opt exampleWithTags.tags ∧
      get_content_example db2 1 = some r2) :=
  ⟨rfl, c6_update_full_replace db1 1 exampleWithTags row1 rfl⟩

/-- C7: delete on a present id (primary keys are unique) returns the
record exactly as it was immediately before deletion and removes it
permanently: a subsequent get returns NotFound and the API surfaces 404. -/
theorem c7_delete_then_get_not_found (db : DB) (example_id : Nat)
    (r : ContentExample)
    (hnd : (db.rows.map ContentExample.id).Nodup)
    (h : get_content_example db example_id = some r) :
    ∃ db2, delete_content_example db example_id = (db2, some r) ∧
      get_content_example db2 example_id = none ∧
      read_example db2 example_id = Except.error 404 := by
  have hg : get_content_example
      { db with rows := removeFirstById db.rows example_id } example_id
      = none := by
    unfold get_content_example
    exact find?_removeFirstById db.rows example_id hnd
  refine ⟨{ db with rows := removeFirstById db.rows example_id },
    ?eq, hg, ?r404⟩
  · unfold delete_content_example
    rw [h]
  · unfold read_example
    rw [hg]

/-- Witness for C7 on a one-row store. -/
theorem c7_delete_then_get_not_found_witness :
    (db1.rows.map ContentExample.id).Nodup ∧
    get_content_example db1 1 = some row1 ∧
    (∃ db2, delete_content_example db1 1 = (db2, some row1) ∧
      get_content_example db2 1 = none ∧
      read_example db2 1 = Except.error 404) :=
  ⟨by decide, rfl, c7_delete_then_get_not_found db1 1 row1 (by decide) rfl⟩

/-- C8: list returns at most `limit` records; the j-th returned record is
the record at position `skip + j` of the table in insertion order; an
offset at or beyond the table size yields the empty sequence, not an
error. -/
theorem c8_list_pagination (db : DB) (skip limit j : Nat)
    (hpos : 0 < limit) (hj : j < limit) :
    (get_content_examples db skip limit).length ≤ limit ∧
    (get_content_examples db skip limit)[j]? = db.rows[skip + j]? ∧
    (db.rows.length ≤ skip → get_content_examples db skip limit = []) := by
  refine ⟨?len, ?get, ?beyond⟩
  · unfold get_content_examples
    rw [List.length_take]
    exact min_le_left _ _
  · unfold get_content_examples
    rw [List.getElem?_take_of_lt hj]
    exact List.getElem?_drop db.rows skip j
  · intro hle
    unfold get_content_examples
    rw [List.drop_eq_nil_of_le hle]
    simp

/-- Witness for C8 on a one-row store with the default endpoint
pagination parameters. -/
theorem c8_list_pagination_witness :
    (0 : Nat) < 100 ∧ (0 : Nat) < 100 ∧
    ((get_content_examples db1 0 100).length ≤ 100 ∧
      (get_content_examples db1 0 100)[0]? = db1.rows[0 + 0]? ∧
      (db1.rows.length ≤ 0 → get_content_examples db1 0 100 = [])) :=
  ⟨by decide, by decide, c8_list_pagination db1 0 100 0 (by decide) (by decide)⟩

/-- C9: an unrecognized configured backend name selects neither backend:
the suggest operation performs zero outbound calls and returns the empty
suggestion list instead of raising. -/
theorem c9_unknown_provider_fail_safe (env : Env) (s : List Char)
    (h1 : env.provider ≠ "openai") (h2 : env.provider ≠ "claude") :
    suggest_categoriesI env s = (Except.ok [], 0) := by
  unfold suggest_categoriesI
  rw [if_neg h1, if_neg h2]

/-- Witness for C9 at the concrete provider name "gemini". -/
theorem c9_unknown_provider_fail_safe_witness :
    envUnknown.provider ≠ "openai" ∧ envUnknown.provider ≠ "claude" ∧
    suggest_categoriesI envUnknown ['h', 'i'] = (Except.ok [], 0) :=
  ⟨by decide, by decide,
    c9_unknown_provider_fail_safe envUnknown ['h', 'i']
      (by decide) (by decide)⟩

/-- Well-formedness maintained by the store: primary keys are unique and
below the autoincrement counter.  This justifies the uniqueness hypothesis
used for deletion: `id` is the table primary key. -/
def DBWf (db : DB) : Prop :=
  (db.rows.map ContentExample.id).Nodup ∧ ∀ r ∈ db.rows, r.id < db.nextId

theorem create_content_example_preserves_wf (db : DB)
    (ex : ContentExampleCreate) (h : DBWf db) :
    DBWf (create_content_example db ex).1 := by
  obtain ⟨hnd, hlt⟩ := h
  constructor
  · show ((db.rows ++ [storedRow db ex]).map ContentExample.id).Nodup
    rw [List.map_append]
    refine List.Nodup.append hnd (by simp) ?dj
    intro a ha hb
    rcases List.mem_map.mp ha with ⟨r, hr, hra⟩
    have hrl := hlt r hr
    simp only [List.map_cons, List.map_nil, List.mem_singleton] at hb
    rw [hra, hb] at hrl
    exact absurd rfl (Nat.ne_of_lt hrl)
  · intro r hr
    show r.id < db.nextId + 1
    rcases List.mem_append.mp hr with h1 | h1
    · exact Nat.lt_succ_of_lt (hlt r h1)
    · rw [List.mem_singleton] at h1
      rw [h1]
      exact Nat.lt_succ_self _
